import Mathlib

/-!
Verification of the job-queue / status-tracking core of the Space-Sim
repository (src/generation_testing/direct_api_server.py).

The embedding models the module shallowly:

* `GenerateRequest` mirrors the pydantic request model.
* `JobRecord` mirrors one entry of the global `jobs` dictionary; dictionary
  keys that are only sometimes present (`model_base64`, `error`,
  `completed_at`) are `Option` fields.
* `Jobs` models the global `jobs` dictionary as a partial map from job
  identifiers to records; `jobs[k] = v` is `Jobs.set`.
* The outcome of the external world is an `Env`: the result of
  `base64.b64decode` on the request image, the configured API key, the
  outcome of the HTTP post performed by the Hunyuan3D client, and the
  clock value used for `completed_at`.  The handlers are deterministic
  functions of the environment.
* `base64.b64encode` is deterministic and is modelled concretely by
  `b64encode`.
* Exceptions are modelled with `Except`: a Python function that raises is a
  function into `Except String α` carrying the exception text.

`process_job` mutates the shared record with a sequence of single-field
assignments.  The function body contains exactly one `await` that can
suspend it (the generation call); every other statement runs synchronously
on the single event loop, so concurrent request handlers can observe the
record only in the states reached at that suspension point or after the
task finished.  The embedding keeps both granularities: `process_job_writes`
is the exact source-ordered list of field assignments, and
`observableStates` are the record values visible to other handlers (the
states at the start, at the suspension point, and at the end of the task).
-/

set_option linter.unusedVariables false

namespace DirectApiServer

/-- Request body of POST /generate and POST /send (pydantic GenerateRequest).
The image field is the base64-encoded image payload; the trailing fields keep
the source defaults (128, 20, 5.0, "mc", false, "glb"). -/
structure GenerateRequest where
  image : String
  caption : String
  seed : Option Int
  octree_resolution : Int
  num_inference_steps : Int
  guidance_scale : Rat
  mc_algo : String
  texture : Bool
  type : String
  deriving DecidableEq

/-- One entry of the global jobs dictionary.  send_job creates it with the
first five fields; model_base64, error and completed_at are dictionary keys
that are added later (if ever), hence Option fields. -/
structure JobRecord where
  status : String
  progress : Int
  message : String
  created_at : Nat
  request : GenerateRequest
  model_base64 : Option String
  error : Option String
  completed_at : Option Nat
  deriving DecidableEq

/-- The global in-memory job storage, a Python dict keyed by job id. -/
def Jobs : Type := String → Option JobRecord

/-- The empty jobs dictionary. -/
def Jobs.empty : Jobs := fun _ => none

/-- Dictionary lookup: jobs.get(id). -/
def Jobs.find (jobs : Jobs) (id : String) : Option JobRecord := jobs id

/-- Dictionary assignment: jobs[id] = r.  A plain Python dict assignment
inserts or silently overwrites. -/
def Jobs.set (jobs : Jobs) (id : String) (r : JobRecord) : Jobs :=
  fun x => if x = id then some r else jobs x

/-- In-place mutation of the record stored under id (the source always
mutates a record that send_job created beforehand). -/
def Jobs.modify (jobs : Jobs) (id : String) (f : JobRecord → JobRecord) : Jobs :=
  fun x => if x = id then (jobs x).map f else jobs x

/-- The RFC 4648 base64 alphabet used by base64.b64encode. -/
def base64Table : List Char :=
  "ABCDEFGHIJKLMNOPQRSTUVWXYZabcdefghijklmnopqrstuvwxyz0123456789+/".toList

/-- Character of the base64 alphabet at a 6-bit index. -/
def b64char (n : Nat) : Char := base64Table.getD (n % 64) 'A'

/-- Concrete model of base64.b64encode(...).decode("utf-8") on a byte list. -/
def b64encode : List Nat → String
  | [] => ""
  | [a] =>
      String.mk [b64char (a / 4), b64char (a % 4 * 16), '=', '=']
  | [a, b] =>
      String.mk [b64char (a / 4), b64char (a % 4 * 16 + b / 16), b64char (b % 16 * 4), '=']
  | a :: b :: c :: rest =>
      String.mk [b64char (a / 4), b64char (a % 4 * 16 + b / 16),
                 b64char (b % 16 * 4 + c / 64), b64char (c % 64)] ++ b64encode rest

/-- The parameters dictionary the Hunyuan3D client builds for the backend
call.  The source inserts the seed key only when a seed was supplied, hence
the Option field; check_box_rembg and num_chunks are hard-coded by the
client. -/
structure ApiParameters where
  caption : String
  steps : Int
  guidance_scale : Rat
  octree_resolution : Int
  check_box_rembg : Bool
  num_chunks : Int
  randomize_seed : Bool
  seed : Option Int
  deriving DecidableEq

/-- The payload of the single HTTP post the client performs:
data = [image_data, parameters, output_type]. -/
structure BackendPost where
  image_data : List Nat
  parameters : ApiParameters
  output_type : String
  deriving DecidableEq

/-- Python truthiness test "not self.api_key": true when the key is unset or
the empty string. -/
def apiKeyMissing : Option String → Bool
  | none => true
  | some s => s == ""

/-- The BackendPost built inside Hunyuan3DClient.generate_3d_model from its
arguments.  randomize_seed is True exactly when no seed was supplied, and the
seed key is present exactly when one was. -/
def mkBackendPost (image_data : List Nat) (caption : String) (seed : Option Int)
    (octree_resolution : Int) (num_inference_steps : Int) (guidance_scale : Rat)
    (output_type : String) : BackendPost :=
  { image_data := image_data
    parameters :=
      { caption := caption
        steps := num_inference_steps
        guidance_scale := guidance_scale
        octree_resolution := octree_resolution
        check_box_rembg := true
        num_chunks := 4000
        randomize_seed := seed.isNone
        seed := seed }
    output_type := output_type }

/-- Hunyuan3DClient.generate_3d_model.  post is the outcome of the network
call self.client.post.  The mc_algo and texture arguments are accepted (as in
the source signature) but are not used when building the backend payload.
A missing or empty API key raises before the try block, so its message is not
wrapped; a post failure is re-raised with the "Error generating 3D model: "
prefix. -/
def generate_3d_model (api_key : Option String)
    (post : BackendPost → Except String (List Nat))
    (image_data : List Nat) (caption : String) (seed : Option Int)
    (octree_resolution : Int) (num_inference_steps : Int) (guidance_scale : Rat)
    (mc_algo : String) (texture : Bool) (output_type : String) :
    Except String (List Nat) :=
  if apiKeyMissing api_key then
    Except.error "HUGGINGFACE_API_KEY is not set"
  else
    match post (mkBackendPost image_data caption seed octree_resolution
        num_inference_steps guidance_scale output_type) with
    | Except.ok response => Except.ok response
    | Except.error e => Except.error ("Error generating 3D model: " ++ e)

/-- The deterministic outcomes of the outside world for one request:
the result of base64.b64decode on the request image (error = the raised
binascii exception text), the configured HUGGINGFACE_API_KEY, the outcome of
the backend post, and the time.time() value observed at completion. -/
structure Env where
  b64decode : String → Except String (List Nat)
  api_key : Option String
  post : BackendPost → Except String (List Nat)
  now : Nat

/-- The BackendPost reaching the network when the executor or the synchronous
handler invokes the client with the fields of a request (the composition of
the handler-to-client argument passing with mkBackendPost). -/
def clientPost (image_data : List Nat) (req : GenerateRequest) : BackendPost :=
  mkBackendPost image_data req.caption req.seed req.octree_resolution
    req.num_inference_steps req.guidance_scale req.type

/-- The decode-then-generate sequence shared verbatim by the synchronous
handler and the background job: base64.b64decode(request.image) followed by
hunyuan3d_client.generate_3d_model(...) with the request fields. -/
def pipelineResult (env : Env) (req : GenerateRequest) : Except String (List Nat) :=
  match env.b64decode req.image with
  | Except.error d => Except.error d
  | Except.ok image_data =>
      generate_3d_model env.api_key env.post image_data req.caption req.seed
        req.octree_resolution req.num_inference_steps req.guidance_scale
        req.mc_algo req.texture req.type

/-- An HTTPException raised by a handler. -/
structure HTTPError where
  status_code : Nat
  detail : String
  deriving DecidableEq

/-- POST /generate (generate_model): runs the pipeline inline and returns the
raw artifact; any exception is re-raised as HTTPException(500, str(e)).
The handler never touches the jobs dictionary; threading the store through
makes that frame property explicit. -/
def generate_model (env : Env) (jobs : Jobs) (req : GenerateRequest) :
    Jobs × Except HTTPError (List Nat) :=
  (jobs,
    match pipelineResult env req with
    | Except.ok model_data => Except.ok model_data
    | Except.error e => Except.error { status_code := 500, detail := e })

/-- The record send_job stores under the freshly generated job id. -/
def initialRecord (req : GenerateRequest) (now : Nat) : JobRecord :=
  { status := "queued"
    progress := 0
    message := "Job queued for processing"
    created_at := now
    request := req
    model_base64 := none
    error := none
    completed_at := none }

/-- Body of the POST /send response. -/
structure SendResponse where
  uid : String
  status : String
  deriving DecidableEq

/-- POST /send (send_job): stores the initial queued record under the job id
(a fresh uuid4, supplied here as a parameter since it is an external draw)
and answers with the id.  The storing step is a plain dict assignment. -/
def send_job (jobs : Jobs) (job_id : String) (req : GenerateRequest) (now : Nat) :
    Jobs × SendResponse :=
  (Jobs.set jobs job_id (initialRecord req now), { uid := job_id, status := "queued" })

/-- One single-field assignment jobs[job_id][field] = value performed by
process_job. -/
inductive FieldWrite where
  | status (v : String)
  | progress (v : Int)
  | message (v : String)
  | model_base64 (v : String)
  | error (v : String)
  | completed_at (v : Nat)
  deriving DecidableEq

/-- Effect of one field assignment on the stored record. -/
def applyWrite (r : JobRecord) : FieldWrite → JobRecord
  | FieldWrite.status v => { r with status := v }
  | FieldWrite.progress v => { r with progress := v }
  | FieldWrite.message v => { r with message := v }
  | FieldWrite.model_base64 v => { r with model_base64 := some v }
  | FieldWrite.error v => { r with error := some v }
  | FieldWrite.completed_at v => { r with completed_at := some v }

/-- The three assignments process_job performs on entry. -/
def startWrites : List FieldWrite :=
  [FieldWrite.status "processing", FieldWrite.progress 10,
   FieldWrite.message "Starting model generation"]

/-- The assignments of the except-block of process_job; the recorded error
text is the f-string "Error processing job {job_id}: {str(e)}". -/
def failWrites (job_id : String) (cause : String) : List FieldWrite :=
  [FieldWrite.status "failed", FieldWrite.progress 0,
   FieldWrite.message "Model generation failed",
   FieldWrite.error ("Error processing job " ++ job_id ++ ": " ++ cause)]

/-- The assignments process_job performs after a successful generation call:
encoding progress, then the completion block. -/
def successWrites (encoded : String) (completed_at : Nat) : List FieldWrite :=
  [FieldWrite.progress 80, FieldWrite.message "Processing model data",
   FieldWrite.status "completed", FieldWrite.progress 100,
   FieldWrite.message "Model generation completed",
   FieldWrite.model_base64 encoded, FieldWrite.completed_at completed_at]

/-- The field assignments of one run of process_job, grouped into the maximal
runs of synchronous statements: the single await of the function (the
generation call) is the only point where the task can suspend, so each group
is atomic with respect to every other handler on the event loop.  A decode
failure raises before that await and the except block runs in the same
synchronous stretch. -/
def process_job_blocks (env : Env) (job_id : String) (req : GenerateRequest) :
    List (List FieldWrite) :=
  match env.b64decode req.image with
  | Except.error d => [startWrites ++ failWrites job_id d]
  | Except.ok image_data =>
      [startWrites ++ [FieldWrite.progress 30, FieldWrite.message "Calling Hunyuan3D API"],
       match generate_3d_model env.api_key env.post image_data req.caption req.seed
           req.octree_resolution req.num_inference_steps req.guidance_scale
           req.mc_algo req.texture req.type with
       | Except.ok model_data => successWrites (b64encode model_data) env.now
       | Except.error e => failWrites job_id e]

/-- The field assignments of one run of process_job in source order. -/
def process_job_writes (env : Env) (job_id : String) (req : GenerateRequest) :
    List FieldWrite :=
  (process_job_blocks env job_id req).flatten

/-- Every record value the stored entry passes through during one run of
process_job, one per field assignment, starting from the record send_job
created. -/
def recordStates (env : Env) (job_id : String) (req : GenerateRequest) (now : Nat) :
    List JobRecord :=
  (process_job_writes env job_id req).scanl applyWrite (initialRecord req now)

/-- The record values other request handlers can observe: the stored record
at the task boundaries and at the single suspension point of process_job. -/
def observableStates (env : Env) (job_id : String) (req : GenerateRequest) (now : Nat) :
    List JobRecord :=
  (process_job_blocks env job_id req).scanl (fun r ws => ws.foldl applyWrite r)
    (initialRecord req now)

/-- The stored record after process_job has finished. -/
def finalRecord (env : Env) (job_id : String) (req : GenerateRequest) (now : Nat) :
    JobRecord :=
  (process_job_writes env job_id req).foldl applyWrite (initialRecord req now)

/-- process_job acting on the job storage. -/
def process_job (env : Env) (jobs : Jobs) (job_id : String) (req : GenerateRequest) :
    Jobs :=
  Jobs.modify jobs job_id (fun r => (process_job_writes env job_id req).foldl applyWrite r)

/-- The backend posts issued during one run of process_job: none when the
decode raises or the client rejects the missing key, exactly one otherwise.
The source contains no retry loop around the call. -/
def process_backend_calls (env : Env) (req : GenerateRequest) : List BackendPost :=
  match env.b64decode req.image with
  | Except.error _ => []
  | Except.ok image_data =>
      if apiKeyMissing env.api_key then [] else [clientPost image_data req]

/-- The status values carried by a list of field writes, in order. -/
def statusWrites (ws : List FieldWrite) : List String :=
  ws.filterMap fun w =>
    match w with
    | FieldWrite.status v => some v
    | _ => none

/-- The progress values carried by a list of field writes, in order. -/
def progressWrites (ws : List FieldWrite) : List Int :=
  ws.filterMap fun w =>
    match w with
    | FieldWrite.progress v => some v
    | _ => none

/-- The progress value of every record state of one run, in order. -/
def progressTrace (env : Env) (job_id : String) (req : GenerateRequest) (now : Nat) :
    List Int :=
  (recordStates env job_id req now).map JobRecord.progress

/-- Body of the GET /status/{job_id} response (pydantic JobStatus). -/
structure JobStatus where
  status : String
  progress : Option Int
  message : Option String
  model_base64 : Option String
  error : Option String
  deriving DecidableEq

/-- GET /status/{job_id} (get_job_status): 404 on an unknown id, otherwise a
projection of the record; the artifact is surfaced only when the status is
completed, the error field is passed through as stored. -/
def get_job_status (jobs : Jobs) (job_id : String) : Except HTTPError JobStatus :=
  match Jobs.find jobs job_id with
  | none =>
      Except.error
        { status_code := 404, detail := "Job with ID " ++ job_id ++ " not found" }
  | some job =>
      Except.ok
        { status := job.status
          progress := some job.progress
          message := some job.message
          model_base64 := if job.status == "completed" then job.model_base64 else none
          error := job.error }

/-- The failed record process_job leaves behind: the request and creation
data of the initial record, the except-block fields, and nothing else
stamped. -/
def failedRecord (job_id : String) (req : GenerateRequest) (now : Nat) (cause : String) :
    JobRecord :=
  { status := "failed"
    progress := 0
    message := "Model generation failed"
    created_at := now
    request := req
    model_base64 := none
    error := some ("Error processing job " ++ job_id ++ ": " ++ cause)
    completed_at := none }

/-- The record value at the suspension point of process_job (decode already
succeeded, generation call in flight). -/
def processingRecord (req : GenerateRequest) (now : Nat) : JobRecord :=
  { status := "processing"
    progress := 30
    message := "Calling Hunyuan3D API"
    created_at := now
    request := req
    model_base64 := none
    error := none
    completed_at := none }

/-- The completed record process_job leaves behind on success. -/
def completedRecord (req : GenerateRequest) (now : Nat) (encoded : String)
    (completed_at : Nat) : JobRecord :=
  { status := "completed"
    progress := 100
    message := "Model generation completed"
    created_at := now
    request := req
    model_base64 := some encoded
    error := none
    completed_at := some completed_at }

/-! Concrete fixtures used by witnesses and counterexamples: a request with
the source defaults, and environments for a successful run, a backend
failure, an undecodable image, an empty artifact and a missing API key. -/

/-- A request carrying the source defaults of the optional fields. -/
def req0 : GenerateRequest :=
  { image := "aGVsbG8=", caption := "", seed := none, octree_resolution := 128,
    num_inference_steps := 20, guidance_scale := 5, mc_algo := "mc",
    texture := false, type := "glb" }

/-- Environment of a run where everything succeeds. -/
def envOk : Env :=
  { b64decode := fun _ => Except.ok [104, 105], api_key := some "k",
    post := fun _ => Except.ok [77, 97, 110], now := 42 }

/-- Environment of a run where the backend post raises. -/
def envPostFail : Env :=
  { b64decode := fun _ => Except.ok [104, 105], api_key := some "k",
    post := fun _ => Except.error "boom", now := 42 }

/-- Environment of a run where the image payload is undecodable. -/
def envDecodeFail : Env :=
  { b64decode := fun _ => Except.error "Invalid base64-encoded string",
    api_key := some "k", post := fun _ => Except.ok [77], now := 42 }

/-- Environment of a run where the backend answers with zero bytes. -/
def envEmptyArtifact : Env :=
  { b64decode := fun _ => Except.ok [], api_key := some "k",
    post := fun _ => Except.ok [], now := 42 }

/-- Environment of a process started without HUGGINGFACE_API_KEY. -/
def envNoKey : Env :=
  { b64decode := fun _ => Except.ok [1], api_key := none,
    post := fun _ => Except.ok [77], now := 42 }

/-- The fixture request with a different marching-cubes algorithm and texture
flag; every other field agrees with req0. -/
def reqAlt : GenerateRequest :=
  { req0 with mc_algo := "dmc", texture := true }

/-- A mid-processing record used as a pre-existing store entry. -/
def preexistingRecord : JobRecord :=
  { status := "processing", progress := 30, message := "Calling Hunyuan3D API",
    created_at := 1, request := req0, model_base64 := none, error := none,
    completed_at := none }

/-- A store already holding a record under the identifier a. -/
def jobsWithA : Jobs := Jobs.set Jobs.empty "a" preexistingRecord

/-- A store holding the completed record of the successful concrete run. -/
def jobsDone : Jobs := Jobs.set Jobs.empty "a" (completedRecord req0 0 "TWFu" 42)

/-- Every record value a concurrent handler can observe during a job run is
the initial queued record, the in-flight processing record, a completed
record carrying an encoded artifact, or a failed record carrying an error. -/
lemma observable_mem (env : Env) (job_id : String) (req : GenerateRequest) (now : Nat)
    (r : JobRecord) (hr : r ∈ observableStates env job_id req now) :
    r = initialRecord req now ∨ r = processingRecord req now ∨
    (∃ m, r = completedRecord req now (b64encode m) env.now) ∨
    (∃ c, r = failedRecord job_id req now c) := by
  rcases hd : env.b64decode req.image with d | image_data
  · simp only [observableStates, process_job_blocks, hd, List.scanl, List.mem_cons,
      List.not_mem_nil, or_false] at hr
    rcases hr with h | h
    · exact Or.inl h
    · exact Or.inr (Or.inr (Or.inr ⟨d, h⟩))
  · rcases hg : generate_3d_model env.api_key env.post image_data req.caption req.seed
        req.octree_resolution req.num_inference_steps req.guidance_scale
        req.mc_algo req.texture req.type with e | m
    · simp only [observableStates, process_job_blocks, hd, hg, List.scanl, List.mem_cons,
        List.not_mem_nil, or_false] at hr
      rcases hr with h | h | h
      · exact Or.inl h
      · exact Or.inr (Or.inl h)
      · exact Or.inr (Or.inr (Or.inr ⟨e, h⟩))
    · simp only [observableStates, process_job_blocks, hd, hg, List.scanl, List.mem_cons,
        List.not_mem_nil, or_false] at hr
      rcases hr with h | h | h
      · exact Or.inl h
      · exact Or.inr (Or.inl h)
      · exact Or.inr (Or.inr (Or.inl ⟨m, h⟩))

/-- The error text recorded by the except block of process_job is never the
empty string: it starts with the fixed prefix of the f-string. -/
lemma failedRecord_error_length (job_id : String) (req : GenerateRequest) (now : Nat)
    (cause : String) :
    0 < (((failedRecord job_id req now cause).error).getD "").length := by
  have h : ((failedRecord job_id req now cause).error).getD "" =
      "Error processing job " ++ job_id ++ ": " ++ cause := rfl
  rw [h]
  simp only [String.length_append]
  have h21 : ("Error processing job " : String).length = 21 := rfl
  omega

/-- Claim C1: for every job the record states go queued, then processing,
then exactly one terminal state.  The record send_job creates is queued, and
the status values process_job writes are exactly processing followed by
completed, or processing followed by failed: processing is never skipped,
queued is never written again, and no run writes both terminal states. -/
theorem process_job_state_sequence (env : Env) (job_id : String)
    (req : GenerateRequest) (now : Nat) :
    (initialRecord req now).status = "queued" ∧
    (statusWrites (process_job_writes env job_id req) = ["processing", "completed"] ∨
     statusWrites (process_job_writes env job_id req) = ["processing", "failed"]) := by
  refine ⟨rfl, ?_⟩
  rcases hd : env.b64decode req.image with d | image_data
  · simp only [process_job_writes, process_job_blocks, hd]
    exact Or.inr rfl
  · rcases hg : generate_3d_model env.api_key env.post image_data req.caption req.seed
        req.octree_resolution req.num_inference_steps req.guidance_scale
        req.mc_algo req.texture req.type with e | m
    · simp only [process_job_writes, process_job_blocks, hd, hg]
      exact Or.inr rfl
    · simp only [process_job_writes, process_job_blocks, hd, hg]
      exact Or.inl rfl

/-- Claim C2 counterexample: when the backend answers with zero bytes, the
job completes with model_base64 equal to the empty string, so a completed
record need not carry a non-empty result. -/
theorem completed_record_empty_result :
    finalRecord envEmptyArtifact "j" req0 0 ∈
      observableStates envEmptyArtifact "j" req0 0 ∧
    (finalRecord envEmptyArtifact "j" req0 0).status = "completed" ∧
    (finalRecord envEmptyArtifact "j" req0 0).model_base64 = some "" :=
  ⟨by decide, rfl, rfl⟩

/-- Claim C2 as amended: at every record state a concurrent handler can
observe, a completed record carries a present result and no error, a failed
record carries a non-empty error and no result, and a queued or processing
record carries neither.  (The result is the base64 encoding of the artifact,
which is empty exactly when the backend returned zero bytes.) -/
theorem job_record_result_error_exclusive (env : Env) (job_id : String)
    (req : GenerateRequest) (now : Nat) (r : JobRecord)
    (hr : r ∈ observableStates env job_id req now) :
    (r.status = "completed" → r.model_base64.isSome ∧ r.error = none) ∧
    (r.status = "failed" → r.error.isSome ∧ r.model_base64 = none ∧
      0 < (r.error.getD "").length) ∧
    (r.status = "queued" ∨ r.status = "processing" →
      r.model_base64 = none ∧ r.error = none) := by
  rcases observable_mem env job_id req now r hr with h | h | ⟨m, h⟩ | ⟨c, h⟩ <;> subst h
  · exact ⟨fun hc => by simp [initialRecord] at hc,
      fun hc => by simp [initialRecord] at hc, fun _ => ⟨rfl, rfl⟩⟩
  · exact ⟨fun hc => by simp [processingRecord] at hc,
      fun hc => by simp [processingRecord] at hc, fun _ => ⟨rfl, rfl⟩⟩
  · refine ⟨fun _ => ⟨rfl, rfl⟩, fun hc => by simp [completedRecord] at hc, fun hc => ?_⟩
    rcases hc with hc | hc <;> simp [completedRecord] at hc
  · refine ⟨fun hc => by simp [failedRecord] at hc, ?_, fun hc => ?_⟩
    · exact fun _ => ⟨rfl, rfl, failedRecord_error_length job_id req now c⟩
    · rcases hc with hc | hc <;> simp [failedRecord] at hc

/-- Closed instance of the exclusivity theorem: the completed record of a
successful concrete run has a present result and no error. -/
theorem job_record_result_error_exclusive_witness :
    (completedRecord req0 0 "TWFu" 42).model_base64.isSome ∧
    (completedRecord req0 0 "TWFu" 42).error = none :=
  (job_record_result_error_exclusive envOk "j" req0 0
    (completedRecord req0 0 "TWFu" 42) (by decide)).1 rfl

/-- Claim C3: on any failure of the asynchronous pipeline — an undecodable
image or any exception out of the generation client (missing key, backend
error) — process_job leaves exactly the failed record: state failed,
progress 0, message "Model generation failed", a non-empty error text, no
result and no completed_at stamp; the backend is invoked at most once (no
retry).  The except block swallows the exception, so process_job is a total
function into the store and nothing propagates to the scheduler. -/
theorem process_job_failure_isolation (env : Env) (job_id : String)
    (req : GenerateRequest) (now : Nat) :
    (∀ d, env.b64decode req.image = Except.error d →
      finalRecord env job_id req now = failedRecord job_id req now d) ∧
    (∀ image_data e, env.b64decode req.image = Except.ok image_data →
      generate_3d_model env.api_key env.post image_data req.caption req.seed
        req.octree_resolution req.num_inference_steps req.guidance_scale
        req.mc_algo req.texture req.type = Except.error e →
      finalRecord env job_id req now = failedRecord job_id req now e) ∧
    (∀ cause, 0 < (((failedRecord job_id req now cause).error).getD "").length) ∧
    (process_backend_calls env req).length ≤ 1 := by
  refine ⟨?_, ?_, fun c => failedRecord_error_length job_id req now c, ?_⟩
  · intro d hd
    simp only [finalRecord, process_job_writes, process_job_blocks, hd]
    rfl
  · intro image_data e hd hg
    simp only [finalRecord, process_job_writes, process_job_blocks, hd, hg]
    rfl
  · rcases hd : env.b64decode req.image with d | image_data
    · simp [process_backend_calls, hd]
    · cases hk : apiKeyMissing env.api_key <;> simp [process_backend_calls, hd, hk]

/-- Closed instance of the failure-isolation theorem at a backend failure. -/
theorem process_job_failure_isolation_witness :
    finalRecord envPostFail "j" req0 0 =
      failedRecord "j" req0 0 "Error generating 3D model: boom" :=
  (process_job_failure_isolation envPostFail "j" req0 0).2.1 [104, 105]
    "Error generating 3D model: boom" rfl rfl

/-- Claim C4 counterexample: on a run where the backend raises, the record's
progress values are 0,0,10,10,30,30,30,0,0,0 in order — the failure block
writes progress 0 over the current value 30, so progress is not
monotonically non-decreasing over the job's lifetime. -/
theorem progress_not_monotone :
    ¬ List.Chain' (· ≤ ·) (progressTrace envPostFail "j" req0 0) := by
  intro h
  rw [show progressTrace envPostFail "j" req0 0 =
      [0, 0, 10, 10, 30, 30, 30, 0, 0, 0] from rfl] at h
  simp [List.chain'_cons] at h

/-- Claim C4 as amended: progress is an integer that always stays in 0..100,
and the progress values process_job writes are 10,30,80,100 on success,
10,30,0 on a generation failure and 10,0 on a decode failure — so progress is
monotonically non-decreasing except for the transition to failed, which
resets it to 0; on every run that completes, the whole trace is
non-decreasing. -/
theorem progress_range_and_monotone_until_failure (env : Env) (job_id : String)
    (req : GenerateRequest) (now : Nat) :
    (∀ p ∈ progressTrace env job_id req now, 0 ≤ p ∧ p ≤ 100) ∧
    (progressWrites (process_job_writes env job_id req) = [10, 30, 80, 100] ∨
     progressWrites (process_job_writes env job_id req) = [10, 30, 0] ∨
     progressWrites (process_job_writes env job_id req) = [10, 0]) ∧
    ((finalRecord env job_id req now).status = "completed" →
      List.Chain' (· ≤ ·) (progressTrace env job_id req now)) := by
  rcases hd : env.b64decode req.image with d | image_data
  · have ht : progressTrace env job_id req now = [0, 0, 10, 10, 10, 0, 0, 0] := by
      simp only [progressTrace, recordStates, process_job_writes, process_job_blocks, hd]
      rfl
    have hw : progressWrites (process_job_writes env job_id req) = [10, 0] := by
      simp only [process_job_writes, process_job_blocks, hd]
      rfl
    have hs : (finalRecord env job_id req now).status = "failed" := by
      simp only [finalRecord, process_job_writes, process_job_blocks, hd]
      rfl
    refine ⟨?_, Or.inr (Or.inr hw), fun hc => absurd (hs.symm.trans hc) (by decide)⟩
    rw [ht]
    decide
  · rcases hg : generate_3d_model env.api_key env.post image_data req.caption req.seed
        req.octree_resolution req.num_inference_steps req.guidance_scale
        req.mc_algo req.texture req.type with e | m
    · have ht : progressTrace env job_id req now =
          [0, 0, 10, 10, 30, 30, 30, 0, 0, 0] := by
        simp only [progressTrace, recordStates, process_job_writes, process_job_blocks,
          hd, hg]
        rfl
      have hw : progressWrites (process_job_writes env job_id req) = [10, 30, 0] := by
        simp only [process_job_writes, process_job_blocks, hd, hg]
        rfl
      have hs : (finalRecord env job_id req now).status = "failed" := by
        simp only [finalRecord, process_job_writes, process_job_blocks, hd, hg]
        rfl
      refine ⟨?_, Or.inr (Or.inl hw), fun hc => absurd (hs.symm.trans hc) (by decide)⟩
      rw [ht]
      decide
    · have ht : progressTrace env job_id req now =
          [0, 0, 10, 10, 30, 30, 80, 80, 80, 100, 100, 100, 100] := by
        simp only [progressTrace, recordStates, process_job_writes, process_job_blocks,
          hd, hg]
        rfl
      have hw : progressWrites (process_job_writes env job_id req) = [10, 30, 80, 100] := by
        simp only [process_job_writes, process_job_blocks, hd, hg]
        rfl
      refine ⟨?_, Or.inl hw, fun _ => ?_⟩
      · rw [ht]
        decide
      · rw [ht]
        simp only [List.chain'_cons, List.chain'_singleton, and_true]
        omega

/-- Closed instance of the amended progress theorem: a concrete value of the
trace is in range, and the trace of a successful concrete run is a
non-decreasing chain. -/
theorem progress_range_witness :
    ((0 : Int) ≤ 10 ∧ (10 : Int) ≤ 100) ∧
    List.Chain' (· ≤ ·) (progressTrace envOk "j" req0 0) :=
  ⟨(progress_range_and_monotone_until_failure envOk "j" req0 0).1 10 (by decide),
   (progress_range_and_monotone_until_failure envOk "j" req0 0).2.2 rfl⟩

/-- Claim C8: whenever the decode and the generation call both succeed,
process_job finishes the record as completed: progress 100, the completion
message, the artifact base64-encoded into model_base64, and completed_at
stamped with the clock value. -/
theorem process_job_success_record (env : Env) (job_id : String)
    (req : GenerateRequest) (now : Nat) :
    ∀ image_data model_data,
      env.b64decode req.image = Except.ok image_data →
      generate_3d_model env.api_key env.post image_data req.caption req.seed
        req.octree_resolution req.num_inference_steps req.guidance_scale
        req.mc_algo req.texture req.type = Except.ok model_data →
      finalRecord env job_id req now =
        completedRecord req now (b64encode model_data) env.now := by
  intro image_data model_data hd hg
  simp only [finalRecord, process_job_writes, process_job_blocks, hd, hg]
  rfl

/-- Closed instance of the success theorem on a concrete run: the artifact
bytes 77,97,110 are stored as their base64 encoding TWFu. -/
theorem process_job_success_record_witness :
    finalRecord envOk "j" req0 0 = completedRecord req0 0 "TWFu" 42 :=
  process_job_success_record envOk "j" req0 0 [104, 105] [77, 97, 110] rfl rfl

/-- Claim C5 counterexample: two requests that differ exactly in mc_algo and
texture produce byte-identical backend calls and identical pipeline outcomes.
Those two caller-supplied parameters never reach the backend: the client
accepts them but omits them from the parameters dictionary of the post. -/
theorem backend_call_drops_mc_algo_and_texture :
    req0.mc_algo ≠ reqAlt.mc_algo ∧ req0.texture ≠ reqAlt.texture ∧
    process_backend_calls envOk req0 = process_backend_calls envOk reqAlt ∧
    pipelineResult envOk req0 = pipelineResult envOk reqAlt :=
  ⟨by decide, by decide, rfl, rfl⟩

/-- Claim C5 as amended: the executor hands the client the request fields
unmodified, and the backend call carries the caption, inference step count,
guidance scale, octree resolution, seed (with randomize_seed set exactly when
no seed was given) and output format unmodified, plus the client-fixed
check_box_rembg and num_chunks values; mc_algo and texture are dropped.
When the decode succeeds and a key is configured, the executor issues exactly
this one call. -/
theorem backend_call_parameters (env : Env) (image_data : List Nat)
    (req : GenerateRequest) :
    (clientPost image_data req).image_data = image_data ∧
    (clientPost image_data req).parameters.caption = req.caption ∧
    (clientPost image_data req).parameters.steps = req.num_inference_steps ∧
    (clientPost image_data req).parameters.guidance_scale = req.guidance_scale ∧
    (clientPost image_data req).parameters.octree_resolution = req.octree_resolution ∧
    (clientPost image_data req).parameters.seed = req.seed ∧
    (clientPost image_data req).parameters.randomize_seed = req.seed.isNone ∧
    (clientPost image_data req).parameters.check_box_rembg = true ∧
    (clientPost image_data req).parameters.num_chunks = 4000 ∧
    (clientPost image_data req).output_type = req.type ∧
    (∀ d, env.b64decode req.image = Except.ok d →
      apiKeyMissing env.api_key = false →
      process_backend_calls env req = [clientPost d req]) := by
  refine ⟨rfl, rfl, rfl, rfl, rfl, rfl, rfl, rfl, rfl, rfl, ?_⟩
  intro d hd hk
  simp [process_backend_calls, hd, hk]

/-- Closed instance of the amended backend-call theorem on a concrete run. -/
theorem backend_call_parameters_witness :
    process_backend_calls envOk req0 = [clientPost [104, 105] req0] := by
  have h := backend_call_parameters envOk [104, 105] req0
  exact h.2.2.2.2.2.2.2.2.2.2 [104, 105] rfl rfl

/-- Claim C6 counterexample: submitting under an identifier that is already
present silently overwrites the existing record with a fresh queued record
and returns the normal submission response — there is no DuplicateJob
failure and the existing record is not preserved. -/
theorem send_job_overwrites_existing :
    Jobs.find jobsWithA "a" = some preexistingRecord ∧
    Jobs.find (send_job jobsWithA "a" req0 5).1 "a" = some (initialRecord req0 5) ∧
    initialRecord req0 5 ≠ preexistingRecord ∧
    (send_job jobsWithA "a" req0 5).2 = { uid := "a", status := "queued" } :=
  ⟨rfl, rfl, by decide, rfl⟩

/-- Claim C6 as amended: the create step of submission is an unconditional
dictionary assignment: it stores the fresh queued record under the given
identifier — overwriting any existing record with that identifier, with no
DuplicateJob check — leaves every other identifier unchanged, and always
answers with the identifier and status queued. -/
theorem send_job_create (jobs : Jobs) (job_id : String) (req : GenerateRequest)
    (now : Nat) :
    Jobs.find (send_job jobs job_id req now).1 job_id = some (initialRecord req now) ∧
    (send_job jobs job_id req now).2 = { uid := job_id, status := "queued" } ∧
    (∀ other, other ≠ job_id →
      Jobs.find (send_job jobs job_id req now).1 other = Jobs.find jobs other) := by
  refine ⟨?_, rfl, ?_⟩
  · simp [send_job, Jobs.find, Jobs.set]
  · intro other ho
    simp [send_job, Jobs.find, Jobs.set, ho]

/-- Closed instance of the amended create theorem: storing under a fresh
identifier leaves the record under another identifier unchanged. -/
theorem send_job_create_witness :
    Jobs.find (send_job jobsWithA "b" req0 5).1 "a" = some preexistingRecord := by
  have h := (send_job_create jobsWithA "b" req0 5).2.2 "a" (by decide)
  rw [h]
  rfl

/-- Claim C7: a status query for an unknown identifier yields the 404
not-found condition, never a default record; for a known identifier whose
record is one the submission/executor pipeline can produce, the response
carries the record's state, progress and message, surfaces model_base64 only
when the state is completed, and carries an error text only when the state is
failed. -/
theorem get_job_status_projection (jobs : Jobs) (qid : String) (env : Env)
    (job_id : String) (req : GenerateRequest) (now : Nat) :
    (Jobs.find jobs qid = none →
      get_job_status jobs qid = Except.error
        { status_code := 404, detail := "Job with ID " ++ qid ++ " not found" }) ∧
    (∀ r, Jobs.find jobs qid = some r → r ∈ observableStates env job_id req now →
      get_job_status jobs qid = Except.ok
        { status := r.status, progress := some r.progress, message := some r.message,
          model_base64 := if r.status == "completed" then r.model_base64 else none,
          error := r.error } ∧
      (∀ v, (if r.status == "completed" then r.model_base64 else none) = some v →
        r.status = "completed") ∧
      (∀ v, r.error = some v → r.status = "failed")) := by
  constructor
  · intro h
    simp [get_job_status, h]
  · intro r hfind hmem
    refine ⟨by simp [get_job_status, hfind], ?_, ?_⟩
    · intro v hv
      rcases observable_mem env job_id req now r hmem with h | h | ⟨m, h⟩ | ⟨c, h⟩ <;>
        subst h
      · simp [initialRecord] at hv
      · simp [processingRecord] at hv
      · rfl
      · simp [failedRecord] at hv
    · intro v hv
      rcases observable_mem env job_id req now r hmem with h | h | ⟨m, h⟩ | ⟨c, h⟩ <;>
        subst h
      · simp [initialRecord] at hv
      · simp [processingRecord] at hv
      · simp [completedRecord] at hv
      · rfl

/-- Closed instance of the status-query theorem: a 404 for an unknown
identifier and the completed projection for a stored completed record. -/
theorem get_job_status_projection_witness :
    get_job_status Jobs.empty "zzz" = Except.error
      { status_code := 404, detail := "Job with ID zzz not found" } ∧
    get_job_status jobsDone "a" = Except.ok
      { status := "completed", progress := some 100,
        message := some "Model generation completed",
        model_base64 := some "TWFu", error := none } := by
  constructor
  · exact (get_job_status_projection Jobs.empty "zzz" envOk "j" req0 0).1 rfl
  · have h := ((get_job_status_projection jobsDone "a" envOk "j" req0 0).2
      (completedRecord req0 0 "TWFu" 42) rfl (by decide)).1
    rw [h]
    rfl

/-- Claim C9: the synchronous handler returns the artifact on success and an
error response on failure, and in both cases the job store is left exactly as
it was: the handler never creates, updates or deletes a job record. -/
theorem generate_model_no_store_effect (env : Env) (jobs : Jobs)
    (req : GenerateRequest) :
    (generate_model env jobs req).1 = jobs ∧
    (∀ m, pipelineResult env req = Except.ok m →
      (generate_model env jobs req).2 = Except.ok m) ∧
    (∀ e, pipelineResult env req = Except.error e →
      (generate_model env jobs req).2 =
        Except.error { status_code := 500, detail := e }) := by
  refine ⟨rfl, ?_, ?_⟩
  · intro m hm
    simp [generate_model, hm]
  · intro e he
    simp [generate_model, he]

/-- Closed instance of the synchronous-path theorem: the artifact is returned
on a successful concrete run and an error response on a failing one. -/
theorem generate_model_no_store_effect_witness :
    (generate_model envOk jobsWithA req0).2 = Except.ok [77, 97, 110] ∧
    (generate_model envPostFail jobsWithA req0).2 = Except.error
      { status_code := 500, detail := "Error generating 3D model: boom" } :=
  ⟨(generate_model_no_store_effect envOk jobsWithA req0).2.1 [77, 97, 110] rfl,
   (generate_model_no_store_effect envPostFail jobsWithA req0).2.2
     "Error generating 3D model: boom" rfl⟩

/-- Claim C10: every failure of the synchronous path — undecodable image,
missing credential, backend failure — is surfaced as the same condition:
status code 500 with the exception text as the detail, so callers cannot tell
input errors from backend errors by status code or error class. -/
theorem generate_model_uniform_500 (env : Env) (jobs : Jobs) (req : GenerateRequest) :
    (∀ err, (generate_model env jobs req).2 = Except.error err →
      err.status_code = 500) ∧
    (∀ d, env.b64decode req.image = Except.error d →
      (generate_model env jobs req).2 =
        Except.error { status_code := 500, detail := d }) ∧
    (∀ image_data, env.b64decode req.image = Except.ok image_data →
      apiKeyMissing env.api_key = true →
      (generate_model env jobs req).2 = Except.error
        { status_code := 500, detail := "HUGGINGFACE_API_KEY is not set" }) ∧
    (∀ image_data c, env.b64decode req.image = Except.ok image_data →
      apiKeyMissing env.api_key = false →
      env.post (clientPost image_data req) = Except.error c →
      (generate_model env jobs req).2 = Except.error
        { status_code := 500, detail := "Error generating 3D model: " ++ c }) := by
  refine ⟨?_, ?_, ?_, ?_⟩
  · intro err herr
    rcases hp : pipelineResult env req with e | m
    · simp only [generate_model, hp] at herr
      cases herr
      rfl
    · simp [generate_model, hp] at herr
  · intro d hd
    simp [generate_model, pipelineResult, hd]
  · intro image_data hd hk
    simp [generate_model, pipelineResult, generate_3d_model, hd, hk]
  · intro image_data c hd hk hpost
    simp only [clientPost] at hpost
    simp [generate_model, pipelineResult, generate_3d_model, hd, hk, hpost]

/-- Closed instance of the uniform-500 theorem at the three failure classes. -/
theorem generate_model_uniform_500_witness :
    (generate_model envDecodeFail Jobs.empty req0).2 = Except.error
      { status_code := 500, detail := "Invalid base64-encoded string" } ∧
    (generate_model envNoKey Jobs.empty req0).2 = Except.error
      { status_code := 500, detail := "HUGGINGFACE_API_KEY is not set" } ∧
    (generate_model envPostFail Jobs.empty req0).2 = Except.error
      { status_code := 500, detail := "Error generating 3D model: boom" } :=
  ⟨(generate_model_uniform_500 envDecodeFail Jobs.empty req0).2.1
      "Invalid base64-encoded string" rfl,
   (generate_model_uniform_500 envNoKey Jobs.empty req0).2.2.1 [1] rfl rfl,
   (generate_model_uniform_500 envPostFail Jobs.empty req0).2.2.2 [104, 105] "boom"
      rfl rfl rfl⟩

end DirectApiServer
